import Mathlib

/-!
Verification of the `DriveGCS_Sync_handler.py` path-resolution and mirroring
logic: a shallow embedding of the Drive-to-GCS webhook handler.

Drive metadata lookup is modelled as a map from file identifiers to
metadata records (`Drive`); a `none` result stands for a failed fetch
(HTTP error / missing file).  Python string builtins used by the source
(`str.split('/')`, `str.startswith`, `str.endswith`, `'/'.join`) are modelled
at the character-list level so results are computable by the kernel.
-/

/-- Metadata record returned by `get_file_metadata`: the fields the handler
reads (`name`, `parents`, `mimeType`). A missing `parents` key is the empty
list; a missing `mimeType` is `none`. -/
structure Metadata where
  name : String
  parents : List String
  mimeType : Option String
deriving DecidableEq, Repr

/-- The Drive metadata-lookup capability: `get_file_metadata` for a given
service, as a map from file id to optional metadata (`none` = fetch failed). -/
def Drive : Type := String → Option Metadata

/-- Python `s.split(sep)` on a single-character separator, at the char-list
level: splits at every occurrence, so the result is always non-empty. -/
def pySplitChars (sep : Char) : List Char → List (List Char)
  | [] => [[]]
  | c :: cs =>
    match pySplitChars sep cs with
    | [] => if c = sep then [[], []] else [[c]]
    | h :: t => if c = sep then [] :: h :: t else (c :: h) :: t

/-- Python `s.split('/')` (the `full_path.split('/')` of the source). -/
def pySplit (s : String) (sep : Char) : List String :=
  (pySplitChars sep s.data).map (fun l => ⟨l⟩)

/-- Python `s.startswith(t)`. -/
def pyStartsWith (s t : String) : Bool :=
  t.data.isPrefixOf s.data

/-- Python `s.endswith(t)`. -/
def pyEndsWith (s t : String) : Bool :=
  t.data.isSuffixOf s.data

/-- Python truthiness of an optional string (`None` and `""` are falsy). -/
def strTruthy : Option String → Bool
  | none => false
  | some s => !(s == "")

/-- Python `list.index` (`path_parts.index(shared_folder_name)` in the
source): index of the first occurrence, `none` when absent (`ValueError`). -/
def pyIndex (x : String) : List String → Option Nat
  | [] => none
  | a :: as => if a = x then some 0 else (pyIndex x as).map (· + 1)

/-- `GCS_BASE_PATH` configuration constant of the source. -/
def GCS_BASE_PATH : String := "cogninest.ai/1 ANG Data Aggregator"

/-- `SHARED_FOLDER_ID` configuration constant of the source. -/
def SHARED_FOLDER_ID : String := "1-dFuPfkdYLlVS9VLgIehIGfh6ZcQLXF3"

/-- The `while current_id and depth < max_depth` loop of `get_drive_path`
(lines 94-106).  `fuel` is `max_depth - depth`; `acc` is `path_parts`
(leaf first).  Returns the final `path_parts` together with the number of
metadata fetches the loop performed (the ancestor hops). -/
def drivePathLoop (drive : Drive) : Nat → String → List String → List String × Nat
  | 0, _, acc => (acc, 0)
  | fuel + 1, current_id, acc =>
    if current_id = "" then (acc, 0)
    else
      match drive current_id with
      | none => (acc, 1)
      | some parent_metadata =>
        match parent_metadata.parents with
        | [] => (acc ++ [parent_metadata.name], 1)
        | p :: _ =>
          let r := drivePathLoop drive fuel p (acc ++ [parent_metadata.name])
          (r.fst, r.snd + 1)

/-- `get_drive_path` (lines 74-113): walk the first-parent chain from
`file_id`, collecting names leaf-first, then reverse and join with `/`.
Returns `none` when the initial metadata fetch fails. -/
def get_drive_path (drive : Drive) (file_id : String) : Option String :=
  match drive file_id with
  | none => none
  | some metadata =>
    match metadata.parents with
    | [] => some metadata.name
    | p :: _ =>
      let r := drivePathLoop drive 20 p [metadata.name]
      some (String.intercalate "/" r.fst.reverse)

/-- Number of ancestor hops (metadata fetches beyond the starting node)
`get_drive_path` performs. -/
def drivePathHops (drive : Drive) (file_id : String) : Nat :=
  match drive file_id with
  | none => 0
  | some metadata =>
    match metadata.parents with
    | [] => 0
    | p :: _ => (drivePathLoop drive 20 p [metadata.name]).snd

/-- The relativization core of `get_relative_path_from_shared_folder`
(lines 127-145): locate the shared folder name in the split path, keep what
follows; on `ValueError` fall back to the whole chain. -/
def relativeFromParts (path_parts : List String) (shared_folder_name : String) :
    Option String × Option String :=
  match pyIndex shared_folder_name path_parts with
  | some shared_folder_index =>
    let relative_parts := path_parts.drop (shared_folder_index + 1)
    match relative_parts with
    | [] => (none, some "")
    | _ :: _ =>
      let file_name := relative_parts.getLastD ""
      let folder_path :=
        if relative_parts.length > 1 then String.intercalate "/" relative_parts.dropLast else ""
      (some file_name, some folder_path)
  | none =>
    let file_name := path_parts.getLastD ""
    let folder_path :=
      if path_parts.length > 1 then String.intercalate "/" path_parts.dropLast else ""
    (some file_name, some folder_path)

/-- `get_relative_path_from_shared_folder` (lines 115-149): returns the pair
`(file_name, folder_path)`, each `none` on failure. -/
def get_relative_path_from_shared_folder (drive : Drive)
    (file_id shared_folder_id : String) : Option String × Option String :=
  match get_drive_path drive file_id with
  | none => (none, none)
  | some full_path =>
    match drive shared_folder_id with
    | none => (none, none)
    | some shared_folder_metadata =>
      relativeFromParts (pySplit full_path '/') shared_folder_metadata.name

/-- The export-extension selection of `download_drive_file` (lines 154-172):
native Google types get an export extension (document→.pdf,
spreadsheet→.xlsx, presentation→.pptx, other native types→.pdf); everything
else is downloaded as-is with extension `""`. -/
def download_extension (mime_type : Option String) : String :=
  match mime_type with
  | none => ""
  | some mt =>
    if mt ≠ "" ∧ pyStartsWith mt "application/vnd.google-apps" = true then
      if mt = "application/vnd.google-apps.document" then ".pdf"
      else if mt = "application/vnd.google-apps.spreadsheet" then ".xlsx"
      else if mt = "application/vnd.google-apps.presentation" then ".pptx"
      else ".pdf"
    else ""

/-- `download_drive_file` (lines 151-187), with the byte content abstracted:
`ok = false` models the `HttpError` branch returning `(None, None)`. -/
def download_drive_file (ok : Bool) (mime_type : Option String) :
    Option Unit × Option String :=
  if ok then (some (), some (download_extension mime_type)) else (none, none)

/-- `validate_file_path` (lines 222-232): the filter predicate. -/
def validate_file_path (file_path : String) : Bool :=
  if file_path = "" then true
  else if (pySplit file_path '/').any (fun part => ["2025"].contains part) then true
  else true

/-- The filename-suffixing step of `handle_webhook` (lines 313-316). -/
def gcs_filename_for (file_name extension : String) : String :=
  if extension ≠ "" ∧ pyEndsWith file_name extension = false then file_name ++ extension
  else file_name

/-- The folder-path construction of `handle_webhook` (lines 292-295). -/
def gcs_folder_path (base relative_folder_path : String) : String :=
  if relative_folder_path ≠ "" then base ++ "/" ++ relative_folder_path else base

/-- The destination object key of `handle_webhook` (line 319). -/
def gcs_object_name (base relative_folder_path gcs_filename : String) : String :=
  gcs_folder_path base relative_folder_path ++ "/" ++ gcs_filename

/-- `create_gcs_folder_structure` (lines 204-220), returning the list of
folder-marker object keys it writes: one marker `path + "/"` when the path is
non-trivial and the marker does not already exist. -/
def create_gcs_folder_structure (gcs_exists : String → Bool) (gcs_path : String) :
    List String :=
  if gcs_path = "" ∨ gcs_path = "/" then []
  else if gcs_exists (gcs_path ++ "/") then [] else [gcs_path ++ "/"]

/-- Environment of one webhook invocation: authentication outcomes, the Drive
metadata map, existence of destination objects, and the outcomes of the
download and upload calls. -/
structure WebhookEnv where
  drive_auth : Bool
  gcs_auth : Bool
  drive : Drive
  gcs_exists : String → Bool
  download_ok : Bool
  upload_ok : Bool

/-- Observable outcome of `handle_webhook`: HTTP status, success flag, message,
object keys written to the destination bucket (folder markers and the mirrored
object), and the number of download/upload attempts made. -/
structure WebhookOutcome where
  status : Nat
  success : Bool
  message : String
  writes : List String
  download_attempts : Nat
  upload_attempts : Nat
deriving DecidableEq, Repr

/-- `handle_webhook` (lines 234-349): the request-handling control flow, with
I/O collaborators drawn from the environment. -/
def handle_webhook (env : WebhookEnv) (file_id? : Option String) : WebhookOutcome :=
  match file_id? with
  | none => ⟨400, false, "File ID not provided", [], 0, 0⟩
  | some file_id =>
    if env.drive_auth = false ∨ env.gcs_auth = false then
      ⟨500, false, "Authentication failed", [], 0, 0⟩
    else
      match env.drive file_id with
      | none => ⟨404, false, "Could not retrieve file metadata", [], 0, 0⟩
      | some metadata =>
        if metadata.mimeType = some "application/vnd.google-apps.folder" then
          ⟨200, true, "Skipped folder - only processing files", [], 0, 0⟩
        else
          let r := get_relative_path_from_shared_folder env.drive file_id SHARED_FOLDER_ID
          if strTruthy r.fst = false then
            ⟨500, false, "Could not determine file path", [], 0, 0⟩
          else
            let file_name := r.fst.getD ""
            let relative_folder_path := r.snd.getD ""
            if validate_file_path relative_folder_path = false then
              ⟨200, true, "Skipped file - not in target folder", [], 0, 0⟩
            else
              let folder_path := gcs_folder_path GCS_BASE_PATH relative_folder_path
              let writes :=
                if relative_folder_path ≠ "" then
                  create_gcs_folder_structure env.gcs_exists folder_path
                else []
              if env.download_ok = false then
                ⟨500, false, "Could not download file from Drive", writes, 1, 0⟩
              else
                let extension := download_extension metadata.mimeType
                let gcs_filename := gcs_filename_for file_name extension
                let object_name := gcs_object_name GCS_BASE_PATH relative_folder_path gcs_filename
                if env.upload_ok then
                  ⟨200, true, "Successfully replicated: " ++ file_name ++ " to " ++ object_name,
                    writes ++ [object_name], 1, 1⟩
                else
                  ⟨500, false, "Failed to replicate: " ++ file_name, writes, 1, 1⟩

/-! ## Helper lemmas -/

theorem pyIndex_eq_none {x : String} : ∀ {l : List String}, x ∉ l → pyIndex x l = none
  | [], _ => rfl
  | a :: as, h => by
    have ha : ¬ a = x := fun e => h (e ▸ List.mem_cons_self a as)
    have has : x ∉ as := fun m => h (List.mem_cons_of_mem a m)
    simp [pyIndex, ha, pyIndex_eq_none has]

theorem pyIndex_append {x : String} :
    ∀ {pre : List String} (rest : List String), x ∉ pre →
      pyIndex x (pre ++ x :: rest) = some pre.length
  | [], rest, _ => by simp [pyIndex]
  | a :: as, rest, h => by
    have ha : ¬ a = x := fun e => h (e ▸ List.mem_cons_self a as)
    have has : x ∉ as := fun m => h (List.mem_cons_of_mem a m)
    simp [pyIndex, ha, pyIndex_append rest has]

theorem drop_after_match {α : Type} (pre : List α) (x : α) (rest : List α) :
    (pre ++ x :: rest).drop (pre.length + 1) = rest := by
  have h1 : pre ++ x :: rest = (pre ++ [x]) ++ rest := by simp
  have h2 : pre.length + 1 = (pre ++ [x]).length := by simp
  rw [h1, h2, List.drop_left]


theorem getLastD_cons_append {α : Type} (a : α) (l : List α) (x d : α) :
    (a :: (l ++ [x])).getLastD d = x := by
  rw [← List.cons_append]
  exact List.getLastD_concat d x (a :: l)

theorem dropLast_cons_append {α : Type} (a : α) (l : List α) (x : α) :
    (a :: (l ++ [x])).dropLast = a :: l := by
  rw [← List.cons_append]
  exact List.dropLast_concat

theorem length_cons_append_gt {α : Type} (a : α) (l : List α) (x : α) :
    (a :: (l ++ [x])).length > 1 := by
  simp

theorem relativeFromParts_found {pre mid : List String} {root fname : String}
    (hpre : root ∉ pre) :
    relativeFromParts (pre ++ root :: (mid ++ [fname])) root
      = (some fname, some (String.intercalate "/" mid)) := by
  unfold relativeFromParts
  rw [pyIndex_append (mid ++ [fname]) hpre]
  simp only [drop_after_match]
  cases mid with
  | nil => rfl
  | cons a mid' =>
    simp only [List.cons_append, getLastD_cons_append, dropLast_cons_append,
      if_pos (length_cons_append_gt a mid' fname)]

theorem relativeFromParts_root_last {pre : List String} {root : String}
    (hpre : root ∉ pre) :
    relativeFromParts (pre ++ [root]) root = (none, some "") := by
  unfold relativeFromParts
  rw [pyIndex_append [] hpre]
  simp only [drop_after_match]

theorem relativeFromParts_fallback {init : List String} {last root : String}
    (h : root ∉ init ++ [last]) :
    relativeFromParts (init ++ [last]) root
      = (some last, some (String.intercalate "/" init)) := by
  unfold relativeFromParts
  rw [pyIndex_eq_none h]
  cases init with
  | nil => rfl
  | cons a init' =>
    simp only [List.cons_append, getLastD_cons_append, dropLast_cons_append,
      if_pos (length_cons_append_gt a init' last)]

theorem drivePathLoop_hops_le (drive : Drive) :
    ∀ (fuel : Nat) (current : String) (acc : List String),
      (drivePathLoop drive fuel current acc).snd ≤ fuel
  | 0, _, _ => Nat.le_refl 0
  | fuel + 1, current, acc => by
    unfold drivePathLoop
    by_cases hc : current = ""
    · simp [hc]
    · simp only [if_neg hc]
      cases hdc : drive current with
      | none => simp
      | some parent_metadata =>
        cases hps : parent_metadata.parents with
        | nil => simp [hps]
        | cons p ps =>
          simp only [hps]
          exact Nat.succ_le_succ
            (drivePathLoop_hops_le drive fuel p (acc ++ [parent_metadata.name]))

/-- A well-formed first-parent ancestor chain: `chain` lists `(id, name)`
pairs from some node up to a parentless root, each id resolving under
`drive` to that name and to the next entry as first parent. -/
inductive ChainOk (drive : Drive) : List (String × String) → Prop
  | root (i n : String) (mt : Option String) :
      i ≠ "" → drive i = some ⟨n, [], mt⟩ → ChainOk drive [(i, n)]
  | step (i n j m : String) (ps : List String) (mt : Option String)
      (rest : List (String × String)) :
      i ≠ "" → drive i = some ⟨n, j :: ps, mt⟩ →
      ChainOk drive ((j, m) :: rest) → ChainOk drive ((i, n) :: (j, m) :: rest)

theorem drivePathLoop_chain {drive : Drive} {chain : List (String × String)}
    (h : ChainOk drive chain) :
    ∀ (fuel : Nat) (acc : List String), chain.length ≤ fuel →
      (drivePathLoop drive fuel (chain.headD ("", "")).fst acc).fst
        = acc ++ chain.map Prod.snd := by
  induction h with
  | root i n mt hi hd =>
    intro fuel acc hlen
    cases fuel with
    | zero => simp at hlen
    | succ f => simp [drivePathLoop, hi, hd]
  | step i n j m ps mt rest hi hd _ ih =>
    intro fuel acc hlen
    cases fuel with
    | zero => simp at hlen
    | succ f =>
      have hlen' : ((j, m) :: rest).length ≤ f := by
        simpa [Nat.succ_le_succ_iff] using hlen
      have := ih f (acc ++ [n]) hlen'
      simp only [List.headD_cons] at this
      simp [drivePathLoop, hi, hd, this]

theorem get_drive_path_chain {drive : Drive} {file_id n j m : String}
    {ps : List String} {mt : Option String} {rest : List (String × String)}
    (hf : drive file_id = some ⟨n, j :: ps, mt⟩)
    (hc : ChainOk drive ((j, m) :: rest))
    (hlen : ((j, m) :: rest).length ≤ 20) :
    get_drive_path drive file_id
      = some (String.intercalate "/" ((n :: ((j, m) :: rest).map Prod.snd).reverse)) := by
  unfold get_drive_path
  rw [hf]
  have h := drivePathLoop_chain hc 20 [n] hlen
  simp only [List.headD_cons] at h
  simp [h]

theorem get_drive_path_isSome {drive : Drive} {file_id : String} {md : Metadata}
    (h : drive file_id = some md) :
    (get_drive_path drive file_id).isSome = true := by
  unfold get_drive_path
  rw [h]
  cases hps : md.parents <;> simp [hps]

theorem validate_file_path_true (file_path : String) :
    validate_file_path file_path = true := by
  unfold validate_file_path
  split
  · rfl
  · split <;> rfl

/-! ## Concrete environments used by witnesses and counterexamples -/

/-- A four-level Drive tree `Root/A/B/file` (ids `r`, `a`, `b`, `f`). -/
def demoDrive : Drive := fun id =>
  if id = "f" then some ⟨"file", ["b"], some "text/plain"⟩
  else if id = "b" then some ⟨"B", ["a"], some "application/vnd.google-apps.folder"⟩
  else if id = "a" then some ⟨"A", ["r"], some "application/vnd.google-apps.folder"⟩
  else if id = "r" then some ⟨"Root", [], some "application/vnd.google-apps.folder"⟩
  else none

/-- A Drive in which the starting file resolves but its parent fetch fails. -/
def badDrive : Drive := fun id =>
  if id = "f" then some ⟨"Leaf", ["p"], some "text/plain"⟩ else none

/-- A Drive whose parent links form a two-cycle `a -> b -> a`. -/
def cycleDrive : Drive := fun id =>
  if id = "a" then some ⟨"A", ["b"], none⟩
  else if id = "b" then some ⟨"B", ["a"], none⟩
  else none

/-- A two-level Drive tree `Root/file` (ids `r`, `f`). -/
def chainDrive : Drive := fun id =>
  if id = "f" then some ⟨"file", ["r"], some "text/plain"⟩
  else if id = "r" then some ⟨"Root", [], some "application/vnd.google-apps.folder"⟩
  else none

/-- A Drive where the file lives outside the shared tree: path `Other/file2`,
shared folder `s` named `Shared` (a name absent from the chain). -/
def w6drive : Drive := fun id =>
  if id = "g" then some ⟨"file2", ["d"], some "text/plain"⟩
  else if id = "d" then some ⟨"Other", [], some "application/vnd.google-apps.folder"⟩
  else if id = "s" then some ⟨"Shared", [], some "application/vnd.google-apps.folder"⟩
  else none

/-! ## Claims -/

/-- Claim C1: for every path chain in which the shared root's resolved name
occurs (at its first occurrence, i.e. not among the components before it)
with the folder names `mid` strictly between that occurrence and the final
component `fname`, `get_relative_path_from_shared_folder` returns `fname` as
the file name and exactly the names of `mid`, in top-down order joined by
`/`, as the relative folder path. -/
theorem C1_relativizer_exact (drive : Drive) (file_id shared_folder_id fp : String)
    (smd : Metadata) (pre mid : List String) (rootName fname : String)
    (hfp : get_drive_path drive file_id = some fp)
    (hsm : drive shared_folder_id = some smd)
    (hname : smd.name = rootName)
    (hsplit : pySplit fp '/' = pre ++ rootName :: (mid ++ [fname]))
    (hpre : rootName ∉ pre) :
    get_relative_path_from_shared_folder drive file_id shared_folder_id
      = (some fname, some (String.intercalate "/" mid)) := by
  unfold get_relative_path_from_shared_folder
  rw [hfp, hsm]
  simp only [hname, hsplit]
  exact relativeFromParts_found hpre

/-- Witness for C1 on the concrete tree `Root/A/B/file` with shared root
`Root`: two folders (`A`, `B`) between root and file. -/
theorem C1_relativizer_exact_witness :
    get_relative_path_from_shared_folder demoDrive "f" "r" = (some "file", some "A/B") := by
  have h := C1_relativizer_exact demoDrive "f" "r" "Root/A/B/file"
    ⟨"Root", [], some "application/vnd.google-apps.folder"⟩ [] ["A", "B"] "Root" "file"
    (by decide) (by decide) rfl (by decide) (by decide)
  exact h.trans (by decide)

/-- Claim C2: the destination object key is
`base ++ "/" ++ rel ++ "/" ++ fname` for a non-empty relative folder path and
`base ++ "/" ++ fname` for an empty one, with no doubled or trailing
separator introduced; in particular `X/A/B/report` and `X/report`. -/
theorem C2_object_key (base rel fname : String) :
    (rel ≠ "" → gcs_object_name base rel fname = base ++ "/" ++ rel ++ "/" ++ fname) ∧
    gcs_object_name base "" fname = base ++ "/" ++ fname ∧
    gcs_object_name "X" "A/B" "report" = "X/A/B/report" ∧
    gcs_object_name "X" "" "report" = "X/report" := by
  refine ⟨fun h => ?_, ?_, by decide, by decide⟩
  · unfold gcs_object_name gcs_folder_path
    rw [if_pos h]
  · unfold gcs_object_name gcs_folder_path
    simp

/-- Witness for C2 at base `X`, relative path `A/B`, filename `report`. -/
theorem C2_object_key_witness :
    gcs_object_name "X" "A/B" "report" = "X" ++ "/" ++ "A/B" ++ "/" ++ "report" :=
  (C2_object_key "X" "A/B" "report").1 (by decide)

/-- Claim C3: the export-extension map sends the native document type to
`.pdf`, the native spreadsheet type to `.xlsx`, the native presentation type
to `.pptx`, any other native `application/vnd.google-apps` type to `.pdf`,
and any non-native type (or absent type) to the empty extension; the
extension is appended to the filename exactly when the filename does not
already end with it. -/
theorem C3_export_extension (mt fn ext : String) :
    download_extension (some "application/vnd.google-apps.document") = ".pdf" ∧
    download_extension (some "application/vnd.google-apps.spreadsheet") = ".xlsx" ∧
    download_extension (some "application/vnd.google-apps.presentation") = ".pptx" ∧
    (pyStartsWith mt "application/vnd.google-apps" = true →
      mt ≠ "application/vnd.google-apps.document" →
      mt ≠ "application/vnd.google-apps.spreadsheet" →
      mt ≠ "application/vnd.google-apps.presentation" →
      download_extension (some mt) = ".pdf") ∧
    (pyStartsWith mt "application/vnd.google-apps" = false →
      download_extension (some mt) = "") ∧
    download_extension none = "" ∧
    (ext ≠ "" → pyEndsWith fn ext = false → gcs_filename_for fn ext = fn ++ ext) ∧
    (pyEndsWith fn ext = true → gcs_filename_for fn ext = fn) := by
  refine ⟨by decide, by decide, by decide, ?_, ?_, rfl, ?_, ?_⟩
  · intro h h1 h2 h3
    have hne : mt ≠ "" := by
      intro e
      rw [e] at h
      exact absurd h (by decide)
    simp only [download_extension]
    rw [if_pos ⟨hne, h⟩, if_neg h1, if_neg h2, if_neg h3]
  · intro h
    simp only [download_extension]
    rw [if_neg]
    rintro ⟨-, h2⟩
    rw [h] at h2
    exact absurd h2 (by decide)
  · intro h1 h2
    unfold gcs_filename_for
    rw [if_pos ⟨h1, h2⟩]
  · intro h
    unfold gcs_filename_for
    rw [if_neg]
    rintro ⟨-, h2⟩
    rw [h] at h2
    exact absurd h2 (by decide)

/-- Witness for C3: an unlisted native type (a Drawing) exports as `.pdf`. -/
theorem C3_export_extension_witness :
    download_extension (some "application/vnd.google-apps.drawing") = ".pdf" :=
  (C3_export_extension "application/vnd.google-apps.drawing" "x" "y").2.2.2.1
    (by decide) (by decide) (by decide) (by decide)

/-- Counterexample to claim C4 as stated: in `badDrive` the fetch of the
parent `p` fails (`badDrive "p" = none`), yet `get_drive_path` does not
return the failure signal `none` — it returns the truncated path `"Leaf"`.
Only a failure of the initial fetch yields `none`. -/
theorem C4_counterexample :
    badDrive "p" = none ∧ get_drive_path badDrive "f" ≠ none ∧
    get_drive_path badDrive "f" = some "Leaf" := by
  refine ⟨by decide, ?_, by decide⟩
  decide

/-- Claim C4 (amended): `get_drive_path` returns `none` exactly when the
initial metadata fetch fails; when the fetches succeed along a well-formed
first-parent chain to a parentless root within the 20-hop ceiling it returns
the root-to-leaf names joined by `/`; and whenever the initial fetch
succeeds the result is a (possibly truncated) path, never `none`, even if an
ancestor fetch partway up fails. -/
theorem C4_walker_failure (drive : Drive) (file_id : String) :
    (get_drive_path drive file_id = none ↔ drive file_id = none) ∧
    (∀ n : String, ∀ mt : Option String,
      drive file_id = some ⟨n, [], mt⟩ → get_drive_path drive file_id = some n) ∧
    (∀ n j m : String, ∀ ps : List String, ∀ mt : Option String,
      ∀ rest : List (String × String),
      drive file_id = some ⟨n, j :: ps, mt⟩ →
      ChainOk drive ((j, m) :: rest) → ((j, m) :: rest).length ≤ 20 →
      get_drive_path drive file_id
        = some (String.intercalate "/" ((n :: ((j, m) :: rest).map Prod.snd).reverse))) := by
  refine ⟨⟨?_, ?_⟩, ?_, ?_⟩
  · intro h
    by_contra hne
    obtain ⟨md, hd⟩ := Option.ne_none_iff_exists'.mp hne
    have hs := get_drive_path_isSome hd
    rw [h] at hs
    exact absurd hs (by decide)
  · intro h
    unfold get_drive_path
    rw [h]
  · intro n mt h
    simp [get_drive_path, h]
  · intro n j m ps mt rest h hc hlen
    exact get_drive_path_chain h hc hlen

/-- Witness for C4 (amended) on the two-level tree `Root/file`. -/
theorem C4_walker_failure_witness :
    get_drive_path chainDrive "f" = some "Root/file" := by
  have h := (C4_walker_failure chainDrive "f").2.2 "file" "r" "Root" [] (some "text/plain") []
    (by decide)
    (ChainOk.root "r" "Root" (some "application/vnd.google-apps.folder") (by decide) (by decide))
    (by decide)
  exact h.trans (by decide)

/-- Claim C5: for every Drive (including ones whose parent links form a
cycle) the walker performs at most 20 ancestor hops, and on a concrete
two-cycle it terminates with a (truncated) path instead of looping or
failing. -/
theorem C5_hop_ceiling (drive : Drive) (file_id : String) :
    drivePathHops drive file_id ≤ 20 ∧
    get_drive_path cycleDrive "a"
      = some "A/B/A/B/A/B/A/B/A/B/A/B/A/B/A/B/A/B/A/B/A" ∧
    drivePathHops cycleDrive "a" = 20 := by
  refine ⟨?_, by decide, by decide⟩
  unfold drivePathHops
  cases hd : drive file_id with
  | none => exact Nat.zero_le 20
  | some md =>
    cases hps : md.parents with
    | nil => simp [hps]
    | cons p ps =>
      simp only [hps]
      exact drivePathLoop_hops_le drive 20 p [md.name]

/-- Claim C6: when the shared root's resolved name appears nowhere in the
path chain, the relativizer falls back to the entire chain: the last
component becomes the file name and all preceding components, joined by
`/`, the relative folder path. -/
theorem C6_fallback_whole_chain (drive : Drive) (file_id shared_folder_id fp : String)
    (smd : Metadata) (init : List String) (last : String)
    (hfp : get_drive_path drive file_id = some fp)
    (hsm : drive shared_folder_id = some smd)
    (hsplit : pySplit fp '/' = init ++ [last])
    (hnotin : smd.name ∉ init ++ [last]) :
    get_relative_path_from_shared_folder drive file_id shared_folder_id
      = (some last, some (String.intercalate "/" init)) := by
  unfold get_relative_path_from_shared_folder
  rw [hfp, hsm]
  simp only [hsplit]
  exact relativeFromParts_fallback hnotin

/-- Witness for C6: file at `Other/file2`, shared root named `Shared`
absent from the chain; the whole chain is used. -/
theorem C6_fallback_whole_chain_witness :
    get_relative_path_from_shared_folder w6drive "g" "s" = (some "file2", some "Other") := by
  have h := C6_fallback_whole_chain w6drive "g" "s" "Other/file2"
    ⟨"Shared", [], some "application/vnd.google-apps.folder"⟩ ["Other"] "file2"
    (by decide) (by decide) (by decide) (by decide)
  exact h.trans (by decide)

/-- Claim C7: `validate_file_path` accepts every input path, including the
empty path and paths without the designated segment; no path is rejected. -/
theorem C7_filter_accepts_all (file_path : String) :
    validate_file_path file_path = true :=
  validate_file_path_true file_path

/-- Claim C8: failure-to-response mapping of the webhook handler.
Authentication failure gives a 500-style failed response; an identifier that
resolves to no metadata gives 404; a path-resolution failure gives 500; a
download failure gives 500; an upload failure gives 500; and no retry is
attempted (at most one download attempt and one upload attempt in any run). -/
theorem C8_error_mapping (env : WebhookEnv) (file_id : String) :
    ((env.drive_auth = false ∨ env.gcs_auth = false) →
      (handle_webhook env (some file_id)).status = 500 ∧
      (handle_webhook env (some file_id)).success = false) ∧
    (env.drive_auth = true → env.gcs_auth = true → env.drive file_id = none →
      (handle_webhook env (some file_id)).status = 404 ∧
      (handle_webhook env (some file_id)).success = false) ∧
    (∀ md : Metadata, env.drive_auth = true → env.gcs_auth = true →
      env.drive file_id = some md →
      md.mimeType ≠ some "application/vnd.google-apps.folder" →
      strTruthy (get_relative_path_from_shared_folder env.drive file_id SHARED_FOLDER_ID).fst
        = false →
      (handle_webhook env (some file_id)).status = 500 ∧
      (handle_webhook env (some file_id)).success = false) ∧
    (∀ md : Metadata, env.drive_auth = true → env.gcs_auth = true →
      env.drive file_id = some md →
      md.mimeType ≠ some "application/vnd.google-apps.folder" →
      strTruthy (get_relative_path_from_shared_folder env.drive file_id SHARED_FOLDER_ID).fst
        = true →
      env.download_ok = false →
      (handle_webhook env (some file_id)).status = 500 ∧
      (handle_webhook env (some file_id)).success = false) ∧
    (∀ md : Metadata, env.drive_auth = true → env.gcs_auth = true →
      env.drive file_id = some md →
      md.mimeType ≠ some "application/vnd.google-apps.folder" →
      strTruthy (get_relative_path_from_shared_folder env.drive file_id SHARED_FOLDER_ID).fst
        = true →
      env.download_ok = true → env.upload_ok = false →
      (handle_webhook env (some file_id)).status = 500 ∧
      (handle_webhook env (some file_id)).success = false) ∧
    ((handle_webhook env (some file_id)).download_attempts ≤ 1 ∧
      (handle_webhook env (some file_id)).upload_attempts ≤ 1) := by
  refine ⟨?_, ?_, ?_, ?_, ?_, ?_⟩
  · intro h
    simp [handle_webhook, h]
  · intro h1 h2 h3
    simp [handle_webhook, h1, h2, h3]
  · intro md h1 h2 h3 h4 h5
    simp [handle_webhook, h1, h2, h3, h4, h5]
  · intro md h1 h2 h3 h4 h5 h6
    simp [handle_webhook, h1, h2, h3, h4, h5, h6, validate_file_path_true]
  · intro md h1 h2 h3 h4 h5 h6 h7
    simp [handle_webhook, h1, h2, h3, h4, h5, h6, h7, validate_file_path_true]
  · refine ⟨?_, ?_⟩ <;>
    · simp only [handle_webhook]
      (repeat' split) <;> (first
      | exact Nat.zero_le 1
      | exact Nat.le_refl 1)

/-- Environment whose Drive authentication fails. -/
def w8env : WebhookEnv :=
  ⟨false, true, fun _ => none, fun _ => false, true, true⟩

/-- Witness for C8: authentication failure yields the 500 failed response. -/
theorem C8_error_mapping_witness :
    (handle_webhook w8env (some "file1")).status = 500 ∧
    (handle_webhook w8env (some "file1")).success = false :=
  (C8_error_mapping w8env "file1").1 (Or.inl rfl)

/-- Claim C9: when the resolved item is a folder (`mimeType` is the folder
discriminator), the handler returns 200 with the skip message and performs
no download, no upload, and no write to the destination store. -/
theorem C9_folder_skip (env : WebhookEnv) (file_id : String) (md : Metadata)
    (h1 : env.drive_auth = true) (h2 : env.gcs_auth = true)
    (h3 : env.drive file_id = some md)
    (h4 : md.mimeType = some "application/vnd.google-apps.folder") :
    (handle_webhook env (some file_id)).status = 200 ∧
    (handle_webhook env (some file_id)).success = true ∧
    (handle_webhook env (some file_id)).message = "Skipped folder - only processing files" ∧
    (handle_webhook env (some file_id)).writes = [] ∧
    (handle_webhook env (some file_id)).download_attempts = 0 ∧
    (handle_webhook env (some file_id)).upload_attempts = 0 := by
  simp [handle_webhook, h1, h2, h3, h4]

/-- Environment holding one folder item `fld`. -/
def w9env : WebhookEnv :=
  ⟨true, true,
    (fun id =>
      if id = "fld" then some ⟨"MyFolder", ["x"], some "application/vnd.google-apps.folder"⟩
      else none),
    fun _ => false, true, true⟩

/-- Witness for C9 on the concrete folder item. -/
theorem C9_folder_skip_witness :
    (handle_webhook w9env (some "fld")).status = 200 ∧
    (handle_webhook w9env (some "fld")).success = true ∧
    (handle_webhook w9env (some "fld")).message = "Skipped folder - only processing files" ∧
    (handle_webhook w9env (some "fld")).writes = [] ∧
    (handle_webhook w9env (some "fld")).download_attempts = 0 ∧
    (handle_webhook w9env (some "fld")).upload_attempts = 0 :=
  C9_folder_skip w9env "fld" ⟨"MyFolder", ["x"], some "application/vnd.google-apps.folder"⟩
    rfl rfl (by decide) rfl

/-- Claim C10: when the shared root's name is the last component of the
chain (nothing follows the match), the relativizer returns no file name with
an empty folder path, and the handler (for a non-folder item) consequently
answers 500 `Could not determine file path` instead of mirroring. -/
theorem C10_root_is_last (env : WebhookEnv) (file_id fp : String) (fmd smd : Metadata)
    (pre : List String)
    (hfp : get_drive_path env.drive file_id = some fp)
    (hsm : env.drive SHARED_FOLDER_ID = some smd)
    (hsplit : pySplit fp '/' = pre ++ [smd.name])
    (hpre : smd.name ∉ pre)
    (h1 : env.drive_auth = true) (h2 : env.gcs_auth = true)
    (h3 : env.drive file_id = some fmd)
    (h4 : fmd.mimeType ≠ some "application/vnd.google-apps.folder") :
    get_relative_path_from_shared_folder env.drive file_id SHARED_FOLDER_ID
      = (none, some "") ∧
    (handle_webhook env (some file_id)).status = 500 ∧
    (handle_webhook env (some file_id)).success = false := by
  have hrel : get_relative_path_from_shared_folder env.drive file_id SHARED_FOLDER_ID
      = (none, some "") := by
    unfold get_relative_path_from_shared_folder
    rw [hfp, hsm]
    simp only [hsplit]
    exact relativeFromParts_root_last hpre
  refine ⟨hrel, ?_⟩
  simp [handle_webhook, h1, h2, h3, h4, hrel, strTruthy]

/-- Environment where the resolved item is a file named exactly like the
shared root and sitting at the top of its chain. -/
def w10env : WebhookEnv :=
  ⟨true, true,
    (fun id =>
      if id = "f10" then some ⟨"SharedRoot", [], some "text/plain"⟩
      else if id = SHARED_FOLDER_ID then
        some ⟨"SharedRoot", [], some "application/vnd.google-apps.folder"⟩
      else none),
    fun _ => false, true, true⟩

/-- Witness for C10 on the concrete one-component chain. -/
theorem C10_root_is_last_witness :
    get_relative_path_from_shared_folder w10env.drive "f10" SHARED_FOLDER_ID
      = (none, some "") ∧
    (handle_webhook w10env (some "f10")).status = 500 := by
  have h := C10_root_is_last w10env "f10" "SharedRoot"
    ⟨"SharedRoot", [], some "text/plain"⟩
    ⟨"SharedRoot", [], some "application/vnd.google-apps.folder"⟩
    [] (by decide) (by decide) (by decide) (by decide) rfl rfl (by decide) (by decide)
  exact ⟨h.1, h.2.1⟩
